import Mathlib

/-!
Shallow embedding of `planventure-api/utils/itinerary_generator.py`
(class `ItineraryGenerator`) together with proofs about it.

Modelling conventions:

* A Python `date` is modelled by its proleptic-Gregorian ordinal
  (a `Nat`, exactly Python's `date.toordinal()`: `0001-01-01 ↦ 1`,
  `date.max = 9999-12-31 ↦ 3652059`);
  `(end_date - start_date).days` is ordinal subtraction (as `Int`),
  `strftime('%Y-%m-%d')` is a civil-from-ordinal conversion followed by
  zero-padded printing, and `current_date += timedelta(days=1)` is the
  partial `addDay`, which fails past `date.max` exactly where Python
  raises `OverflowError` (both generator loops run it on their final
  iteration, so a trip ending on `9999-12-31` raises).
* A Python dict literal is an association list in literal order;
  `d[k]` is a failing lookup (`Option`-valued, `KeyError ↦ none`) and
  `d.get(k, v)` is a lookup with a default.  The inner dicts of
  `get_day_notes`'s table all carry exactly the keys `1 / 'middle' /
  'last'`, so they are embedded as records (their `.get` defaults are
  dead code).
* `str.lower()` is ASCII lowering and `kw in text` is substring
  containment, matching Python on the ASCII strings involved.
* The `try/except` of `generate_default_itinerary` becomes a `match` on
  the `Option`-valued main path: `none` (an exception) falls back to
  `generate_basic_itinerary`.
-/

namespace Planventure

/-! ### Strings: ASCII lowering and Python's `in` (substring) -/

/-- ASCII lower-casing of one character, as `str.lower` acts on the
ASCII strings this module manipulates. -/
def lowerChar (c : Char) : Char :=
  if 65 ≤ c.toNat ∧ c.toNat ≤ 90 then Char.ofNat (c.toNat + 32) else c

/-- `s.lower()` on ASCII strings. -/
def lowerStr (s : String) : String :=
  String.mk (s.data.map lowerChar)

/-- `needle` is a prefix of `hay` (on character lists). -/
def isPrefixL : List Char → List Char → Bool
  | [], _ => true
  | _ :: _, [] => false
  | a :: as, b :: bs => a == b && isPrefixL as bs

/-- `needle` occurs somewhere in `hay` (Python's `needle in hay`). -/
def occursIn (needle : List Char) : List Char → Bool
  | [] => isPrefixL needle []
  | c :: rest => isPrefixL needle (c :: rest) || occursIn needle rest

/-- Python's `needle in hay` on strings. -/
def strIn (needle hay : String) : Bool :=
  occursIn needle.data hay.data

/-! ### Dates: ordinal to `'%Y-%m-%d'` -/

/-- Convert a proleptic-Gregorian ordinal (Python `date.toordinal`,
`0001-01-01 ↦ 1`) to `(year, month, day)`. -/
def civilFromOrdinal (n : Nat) : Nat × Nat × Nat :=
  let z := n + 305
  let era := z / 146097
  let doe := z % 146097
  let yoe := (doe - doe / 1460 + doe / 36524 - doe / 146096) / 365
  let y := yoe + era * 400
  let doy := doe - (365 * yoe + yoe / 4 - yoe / 100)
  let mp := (5 * doy + 2) / 153
  let d := doy - (153 * mp + 2) / 5 + 1
  let m := if mp < 10 then mp + 3 else mp - 9
  (if m ≤ 2 then y + 1 else y, m, d)

/-- Zero-pad to two digits. -/
def pad2 (n : Nat) : String :=
  if n < 10 then "0" ++ toString n else toString n

/-- Zero-pad to four digits. -/
def pad4 (n : Nat) : String :=
  if n < 10 then "000" ++ toString n
  else if n < 100 then "00" ++ toString n
  else if n < 1000 then "0" ++ toString n
  else toString n

/-- `current_date.strftime('%Y-%m-%d')` for the date with ordinal `n`. -/
def dateStr (n : Nat) : String :=
  let c := civilFromOrdinal n
  pad4 c.1 ++ "-" ++ pad2 c.2.1 ++ "-" ++ pad2 c.2.2

/-- The ordinal of Python's `date.max` (`9999-12-31`): Python dates are
bounded, `date.toordinal()` ranges over `1 .. 3652059`. -/
def dateMaxOrdinal : Nat := 3652059

/-- `current_date + timedelta(days=1)`: Python raises `OverflowError`
when the result would pass `date.max`, modelled by `none`. -/
def addDay (n : Nat) : Option Nat :=
  if n + 1 ≤ dateMaxOrdinal then some (n + 1) else none

/-! ### Association lists: Python dict literals and lookups -/

/-- Python `d[k]` on a dict literal embedded as an association list:
`none` models the `KeyError`. -/
def alookup {α : Type} : List (String × α) → String → Option α
  | [], _ => none
  | (k, v) :: rest, key => if key == k then some v else alookup rest key

/-! ### `DESTINATION_KEYWORDS` and `classify_destination` -/

/-- The `DESTINATION_KEYWORDS` class attribute, in declaration order. -/
def DESTINATION_KEYWORDS : List (String × List String) :=
  [ ("beach", ["beach", "coast", "island", "resort", "tropical", "bali",
               "hawaii", "maldives", "caribbean"]),
    ("city", ["city", "urban", "metropolitan", "downtown", "paris",
              "tokyo", "london", "new york", "berlin"]),
    ("mountain", ["mountain", "alpine", "peak", "summit", "hiking",
                  "trekking", "alps", "himalayas"]),
    ("cultural", ["museum", "historical", "heritage", "temple",
                  "cathedral", "palace", "ancient", "rome", "athens"]),
    ("adventure", ["adventure", "safari", "wildlife", "national park",
                   "outdoor", "camping", "expedition"]),
    ("business", ["conference", "business", "meeting", "corporate",
                  "convention", "trade show"]),
    ("romantic", ["honeymoon", "romantic", "couples", "anniversary",
                  "valentine"]),
    ("family", ["family", "kids", "children", "theme park", "zoo",
                "aquarium", "disney"]) ]

/-- `sum(1 for keyword in keywords if keyword in text)`. -/
def keywordScore (text : String) (kws : List String) : Nat :=
  (kws.filter (fun kw => strIn kw text)).length

/-- Python's `max(scores, key=scores.get)` over a dict in insertion
order: start from the first entry and replace the champion only on a
strictly greater value, so ties keep the earlier key. -/
def pyMax : String → Nat → List (String × Nat) → String
  | k, _, [] => k
  | k, v, (k2, v2) :: rest =>
      if v2 > v then pyMax k2 v2 rest else pyMax k v rest

/-- The `scores` dict of `classify_destination`: one entry per archetype
whose score is positive, in `DESTINATION_KEYWORDS` order. -/
def scoresDict (text : String) : List (String × Nat) :=
  DESTINATION_KEYWORDS.filterMap (fun p =>
    let sc := keywordScore text p.2
    if sc > 0 then some (p.1, sc) else none)

/-- The part of `classify_destination` after `text` is computed: build
the `scores` dict; if non-empty take `max(scores, key=scores.get)`,
otherwise default to `'city'`. -/
def classifyFromText (text : String) : String :=
  match scoresDict text with
  | [] => "city"
  | (k, v) :: rest => pyMax k v rest

/-- `ItineraryGenerator.classify_destination(destination, description)`:
`text = f"{destination} {description}".lower()`, then score and pick. -/
def classify_destination (destination : String) (description : String) : String :=
  classifyFromText (lowerStr (destination ++ " " ++ description))

/-! ### `ACTIVITY_TEMPLATES` and `generate_daily_activities` -/

/-- The `'city'` entry of `ACTIVITY_TEMPLATES` (named separately because
it is also the `.get` default for unknown destination types). -/
def cityTemplate : List (String × List String) :=
  [ ("arrival", ["Arrive in the city", "Check into hotel",
                 "Initial city orientation walk"]),
    ("morning", ["Historic district exploration", "Famous landmarks tour",
                 "Museums and galleries", "Local breakfast spots"]),
    ("afternoon", ["Shopping districts", "Cultural sites visit",
                   "Local cuisine lunch", "Architectural tours"]),
    ("evening", ["Dinner at local restaurant", "Nightlife exploration",
                 "Theater or entertainment", "City lights tour"]),
    ("departure", ["Final city walk", "Last-minute shopping",
                   "Coffee at local café", "Departure to airport"]) ]

/-- The `ACTIVITY_TEMPLATES` class attribute, in declaration order. -/
def ACTIVITY_TEMPLATES : List (String × List (String × List String)) :=
  [ ("beach",
     [ ("arrival", ["Arrive at destination",
                    "Check into beachfront accommodation",
                    "Welcome drink and resort orientation"]),
       ("morning", ["Beach relaxation", "Swimming and sunbathing",
                    "Water sports activities", "Beach volleyball"]),
       ("afternoon", ["Snorkeling or diving", "Beachside lunch",
                      "Spa and wellness treatments", "Local market visit"]),
       ("evening", ["Sunset viewing", "Beachside dinner",
                    "Live music or entertainment", "Night beach walk"]),
       ("departure", ["Final beach morning", "Souvenir shopping",
                      "Departure preparations", "Check out and transfer"]) ]),
    ("city", cityTemplate),
    ("mountain",
     [ ("arrival", ["Arrive at mountain destination", "Check into lodge",
                    "Equipment check and preparation"]),
       ("morning", ["Hiking and trekking", "Nature walks",
                    "Wildlife spotting", "Photography sessions"]),
       ("afternoon", ["Mountain climbing", "Scenic viewpoints",
                      "Picnic lunch in nature", "Adventure activities"]),
       ("evening", ["Campfire and storytelling", "Stargazing",
                    "Mountain lodge dinner", "Rest and recovery"]),
       ("departure", ["Final morning hike", "Equipment return",
                      "Scenic drive back", "Departure"]) ]),
    ("cultural",
     [ ("arrival", ["Arrive at cultural destination",
                    "Check into heritage hotel",
                    "Initial historical overview"]),
       ("morning", ["Museums and galleries", "Historical sites tour",
                    "Ancient monuments", "Guided cultural walks"]),
       ("afternoon", ["Local artisan workshops", "Traditional performances",
                      "Heritage buildings", "Cultural cuisine"]),
       ("evening", ["Traditional dinner show", "Local festivals (if available)",
                    "Cultural center visits", "Evening prayers/ceremonies"]),
       ("departure", ["Final museum visit", "Cultural souvenir shopping",
                      "Traditional breakfast", "Departure"]) ]),
    ("adventure",
     [ ("arrival", ["Arrive at adventure base", "Equipment briefing",
                    "Safety orientation"]),
       ("morning", ["Outdoor adventures", "Wildlife safari",
                    "Rock climbing", "River rafting"]),
       ("afternoon", ["Extreme sports", "Nature expeditions",
                      "Survival training", "Photography tours"]),
       ("evening", ["Campfire activities", "Adventure stories",
                    "Outdoor dining", "Night safaris"]),
       ("departure", ["Final adventure activity", "Equipment return",
                      "Group photos", "Safe departure"]) ]),
    ("business",
     [ ("arrival", ["Arrive at destination", "Check into business hotel",
                    "Conference registration"]),
       ("morning", ["Business meetings", "Conference sessions",
                    "Networking breakfast", "Keynote presentations"]),
       ("afternoon", ["Workshops and seminars", "Business lunches",
                      "Client meetings", "Trade show visits"]),
       ("evening", ["Business dinners", "Networking events",
                    "Industry meetups", "Work preparation"]),
       ("departure", ["Final meetings", "Follow-up sessions",
                      "Business card exchange", "Departure"]) ]),
    ("romantic",
     [ ("arrival", ["Romantic arrival", "Check into romantic suite",
                    "Welcome champagne"]),
       ("morning", ["Couples spa treatment", "Romantic breakfast",
                    "Private tours", "Photography session"]),
       ("afternoon", ["Romantic lunch", "Couples activities",
                      "Wine tasting", "Scenic walks"]),
       ("evening", ["Candlelit dinner", "Sunset viewing", "Dancing",
                    "Private entertainment"]),
       ("departure", ["Romantic breakfast", "Memory collection",
                      "Final romantic moments", "Departure"]) ]),
    ("family",
     [ ("arrival", ["Family arrival", "Check into family accommodation",
                    "Family orientation"]),
       ("morning", ["Family attractions", "Theme parks",
                    "Interactive museums", "Educational tours"]),
       ("afternoon", ["Family-friendly activities", "Picnic lunch",
                      "Playgrounds and parks", "Family games"]),
       ("evening", ["Family dinner", "Entertainment shows",
                    "Family bonding time", "Early rest for kids"]),
       ("departure", ["Final family activity", "Souvenir shopping for kids",
                      "Family photos", "Departure"]) ]) ]

/-- `cls.ACTIVITY_TEMPLATES.get(dest_type, cls.ACTIVITY_TEMPLATES['city'])`:
Python evaluates the default (a raising `[]` lookup) before the `.get`. -/
def templatesFor (dest_type : String) : Option (List (String × List String)) := do
  let dflt ← alookup ACTIVITY_TEMPLATES "city"
  pure ((alookup ACTIVITY_TEMPLATES dest_type).getD dflt)

/-- `ItineraryGenerator.generate_daily_activities(day_num, total_days,
dest_type, date_str)`.  The `templates[...]` subscripts are failing
lookups, so the result is `Option`-valued; a `none` would be the
exception the caller's `try/except` catches. -/
def generate_daily_activities (day_num : Nat) (total_days : Nat)
    (dest_type : String) (date_str : String) : Option (List String) := do
  let templates ← templatesFor dest_type
  let activities ←
    if day_num = 1 then do
      let arr ← alookup templates "arrival"
      if total_days > 1 then do
        let eve ← alookup templates "evening"
        pure (arr.take 2 ++ eve.take 1)
      else
        pure (arr.take 2)
    else if day_num = total_days then do
      let mor ← alookup templates "morning"
      let dep ← alookup templates "departure"
      pure (mor.take 1 ++ dep)
    else do
      let mor ← alookup templates "morning"
      let aft ← alookup templates "afternoon"
      let eve ← alookup templates "evening"
      pure (mor.take 2 ++ aft.take 2 ++ eve.take 1)
  pure (activities.take 4)

/-! ### `get_day_notes` -/

/-- One inner dict of `get_day_notes`'s `notes_map`: every literal has
exactly the keys `1`, `'middle'`, `'last'`, so a record is faithful. -/
structure DayNotes where
  first : String
  middle : String
  last : String
deriving Repr, DecidableEq

/-- The `'city'` entry of `notes_map` (also the `.get` default). -/
def cityNotes : DayNotes :=
  { first := "Comfortable walking shoes recommended",
    middle := "Book popular attractions in advance",
    last := "Allow extra time for airport transfer" }

/-- The `notes_map` local dict of `get_day_notes`, in literal order. -/
def notes_map : List (String × DayNotes) :=
  [ ("beach",
     { first := "Apply sunscreen and stay hydrated",
       middle := "Best time for water activities is morning",
       last := "Pack souvenirs and enjoy final beach time" }),
    ("city", cityNotes),
    ("mountain",
     { first := "Check weather conditions and pack accordingly",
       middle := "Start early for best views and weather",
       last := "Ensure all equipment is returned" }),
    ("cultural",
     { first := "Respect local customs and dress codes",
       middle := "Photography may be restricted in some areas",
       last := "Visit gift shops for authentic souvenirs" }),
    ("adventure",
     { first := "Safety briefing is mandatory",
       middle := "Follow all safety guidelines",
       last := "Share your adventure stories" }),
    ("business",
     { first := "Confirm all meeting times and locations",
       middle := "Networking opportunities available",
       last := "Follow up on business connections made" }),
    ("romantic",
     { first := "Special romantic surprise planned",
       middle := "Perfect day for couples activities",
       last := "Create lasting memories together" }),
    ("family",
     { first := "Keep kids engaged with family activities",
       middle := "Balance fun with rest time",
       last := "Collect family photos and memories" }) ]

/-- `notes_map.get(dest_type, notes_map['city'])` (the inner `['city']`
lookup succeeds on the literal). -/
def notesFor (dest_type : String) : DayNotes :=
  (alookup notes_map dest_type).getD cityNotes

/-- `ItineraryGenerator.get_day_notes(day_num, total_days, dest_type)`.
The inner `.get(1, ...)`, `.get('last', ...)`, `.get('middle', ...)`
defaults are dead code: every inner literal carries all three keys. -/
def get_day_notes (day_num : Nat) (total_days : Nat) (dest_type : String) : String :=
  let dest_notes := notesFor dest_type
  if day_num = 1 then dest_notes.first
  else if day_num = total_days then dest_notes.last
  else dest_notes.middle

/-! ### The itinerary builders -/

/-- One element of the itinerary list: the `day_plan` dict. -/
structure DayPlan where
  day : Nat
  date : String
  activities : List String
  notes : String
deriving Repr, DecidableEq

/-- The body of one iteration of `generate_default_itinerary`'s loop,
for the 0-based index `i` (`day_num = i + 1`,
`current_date = start_date + i`).  The iteration ends with
`current_date += timedelta(days=1)`, which raises (`none`) when
`current_date` is `date.max`. -/
def dayPlanOf (duration : Nat) (dest_type : String) (start_date : Nat)
    (i : Nat) : Option DayPlan := do
  let date_str := dateStr (start_date + i)
  let activities ← generate_daily_activities (i + 1) duration dest_type date_str
  let plan : DayPlan :=
    { day := i + 1, date := date_str, activities := activities,
      notes := get_day_notes (i + 1) duration dest_type }
  let _ ← addDay (start_date + i)
  pure plan

/-- Run the loop over the listed indices, stopping at the first
exception (`none`), as the `for` inside the `try` block does. -/
def buildDays (f : Nat → Option DayPlan) : List Nat → Option (List DayPlan)
  | [] => some []
  | i :: rest => do
      let p ← f i
      let ps ← buildDays f rest
      pure (p :: ps)

/-- The body of `generate_default_itinerary`'s `try` block:
`duration = (end_date - start_date).days + 1` days, destination
classified from `destination` and `f"{description} {title}"`. -/
def mainItinerary (start_date end_date : Nat)
    (destination description title : String) : Option (List DayPlan) :=
  let duration := ((end_date : Int) - (start_date : Int) + 1).toNat
  let dest_type := classify_destination destination (description ++ " " ++ title)
  buildDays (dayPlanOf duration dest_type start_date) (List.range duration)

/-- One iteration of `generate_basic_itinerary`'s loop: build the day
plan, then `current_date += timedelta(days=1)` (which raises at
`date.max`, uncaught here). -/
def basicDayOf (duration : Nat) (start_date : Nat) (i : Nat) :
    Option DayPlan := do
  let plan : DayPlan :=
    { day := i + 1,
      date := dateStr (start_date + i),
      activities :=
        if i + 1 = 1 then
          ["Arrive at destination", "Check into accommodation",
           "Explore nearby area"]
        else if i + 1 = duration then
          ["Final sightseeing", "Pack and check out", "Departure"]
        else
          ["Morning sightseeing", "Lunch at local restaurant",
           "Afternoon activities", "Evening relaxation"],
      notes := "Day " ++ toString (i + 1) ++ " of your trip" }
  let _ ← addDay (start_date + i)
  pure plan

/-- `ItineraryGenerator.generate_basic_itinerary(start_date, end_date)`:
the fallback generator.  It has no `try/except`, so the date increment's
`OverflowError` (`none`) propagates out of it. -/
def generate_basic_itinerary (start_date end_date : Nat) :
    Option (List DayPlan) :=
  let duration := ((end_date : Int) - (start_date : Int) + 1).toNat
  buildDays (basicDayOf duration start_date) (List.range duration)

/-- `ItineraryGenerator.generate_default_itinerary(start_date, end_date,
destination, description, title)`: the `try/except` returns the basic
itinerary if the main path raises; an exception raised inside the
`except` branch (the fallback's own date increment) propagates out, so
the overall result is still `Option`-valued. -/
def generate_default_itinerary (start_date end_date : Nat)
    (destination : String) (description : String) (title : String) :
    Option (List DayPlan) :=
  match mainItinerary start_date end_date destination description title with
  | some itinerary => some itinerary
  | none => generate_basic_itinerary start_date end_date

/-- Sanity: the date rendering agrees with Python's `strftime` on the
ordinals used below (2025-09-01 has ordinal 739495). -/
lemma dateStr_ordinal_examples :
    dateStr 739495 = "2025-09-01" ∧ dateStr 719163 = "1970-01-01" := by decide

/-! ### Helper lemmas about lookups and the activity selector -/

lemma alookup_mem {α : Type} (l : List (String × α)) (k : String) (v : α)
    (h : alookup l k = some v) : v ∈ l.map Prod.snd := by
  induction l with
  | nil => simp [alookup] at h
  | cons p rest ih =>
    obtain ⟨k1, v1⟩ := p
    by_cases hk : k == k1
    · simp only [alookup, hk, if_pos, Option.some.injEq] at h
      simp [h]
    · simp only [alookup, hk, if_neg, Bool.false_eq_true, not_false_iff] at h
      simp [ih h]

lemma templatesFor_eq (dest_type : String) :
    templatesFor dest_type =
      some ((alookup ACTIVITY_TEMPLATES dest_type).getD cityTemplate) := rfl

lemma tplGetD_mem (dest_type : String) :
    (alookup ACTIVITY_TEMPLATES dest_type).getD cityTemplate ∈
      ACTIVITY_TEMPLATES.map Prod.snd := by
  cases h : alookup ACTIVITY_TEMPLATES dest_type with
  | none => simp only [Option.getD_none]; decide
  | some tpl => simpa using alookup_mem _ _ _ h

lemma template_keys (tpl : List (String × List String))
    (h : tpl ∈ ACTIVITY_TEMPLATES.map Prod.snd) :
    ∃ arr mor aft eve dep,
      alookup tpl "arrival" = some arr ∧ alookup tpl "morning" = some mor ∧
      alookup tpl "afternoon" = some aft ∧ alookup tpl "evening" = some eve ∧
      alookup tpl "departure" = some dep := by
  fin_cases h <;> exact ⟨_, _, _, _, _, rfl, rfl, rfl, rfl, rfl⟩

/-- What `generate_daily_activities` computes, as a total function of the
(successfully looked-up) template: the branch on day number followed by
the truncation to 4. -/
def actSpec (day_num total_days : Nat) (tpl : List (String × List String)) :
    List String :=
  let arr := (alookup tpl "arrival").getD []
  let mor := (alookup tpl "morning").getD []
  let aft := (alookup tpl "afternoon").getD []
  let eve := (alookup tpl "evening").getD []
  let dep := (alookup tpl "departure").getD []
  (if day_num = 1 then arr.take 2 ++ (if total_days > 1 then eve.take 1 else [])
   else if day_num = total_days then mor.take 1 ++ dep
   else mor.take 2 ++ aft.take 2 ++ eve.take 1).take 4

lemma gda_eq_actSpec (day_num total_days : Nat) (dest_type date_str : String) :
    generate_daily_activities day_num total_days dest_type date_str =
      some (actSpec day_num total_days
        ((alookup ACTIVITY_TEMPLATES dest_type).getD cityTemplate)) := by
  obtain ⟨arr, mor, aft, eve, dep, ha, hm, hf, he, hd⟩ :=
    template_keys _ (tplGetD_mem dest_type)
  unfold generate_daily_activities actSpec
  rw [templatesFor_eq]
  simp only [Option.some_bind, ha, hm, hf, he, hd, Option.getD_some]
  by_cases h1 : day_num = 1 <;> by_cases h2 : day_num = total_days <;>
    by_cases h3 : total_days > 1 <;>
      simp [h1, h2, h3, ha, hm, hf, he, hd] <;> split <;> rfl

/-! ### Helper lemmas: the main loop never raises -/

/-- The day plan the main path produces for 0-based index `i`, as a
total function. -/
def dayPlanSpec (duration : Nat) (dest_type : String) (start_date : Nat)
    (i : Nat) : DayPlan :=
  { day := i + 1,
    date := dateStr (start_date + i),
    activities := actSpec (i + 1) duration
      ((alookup ACTIVITY_TEMPLATES dest_type).getD cityTemplate),
    notes := get_day_notes (i + 1) duration dest_type }

lemma addDay_eq (n : Nat) (h : n + 1 ≤ dateMaxOrdinal) :
    addDay n = some (n + 1) := by
  unfold addDay
  rw [if_pos h]

lemma dayPlanOf_eq (duration : Nat) (dest_type : String) (start_date i : Nat)
    (h : start_date + i + 1 ≤ dateMaxOrdinal) :
    dayPlanOf duration dest_type start_date i =
      some (dayPlanSpec duration dest_type start_date i) := by
  simp [dayPlanOf, gda_eq_actSpec, addDay_eq _ h, dayPlanSpec]

lemma buildDays_eq (f : Nat → Option DayPlan) (g : Nat → DayPlan)
    (l : List Nat) (hfg : ∀ i ∈ l, f i = some (g i)) :
    buildDays f l = some (l.map g) := by
  induction l with
  | nil => rfl
  | cons i rest ih =>
    simp only [buildDays, hfg i (List.mem_cons_self i rest),
      ih (fun j hj => hfg j (List.mem_cons_of_mem i hj)),
      Option.some_bind, List.map_cons]
    rfl

lemma duration_toNat (start_date end_date : Nat) (h : start_date ≤ end_date) :
    ((end_date : Int) - (start_date : Int) + 1).toNat =
      (end_date - start_date) + 1 := by
  omega

lemma mainItinerary_eq (start_date end_date : Nat)
    (destination description title : String) (h : start_date ≤ end_date)
    (hmax : end_date < dateMaxOrdinal) :
    mainItinerary start_date end_date destination description title =
      some ((List.range ((end_date - start_date) + 1)).map
        (dayPlanSpec ((end_date - start_date) + 1)
          (classify_destination destination (description ++ " " ++ title))
          start_date)) := by
  unfold mainItinerary
  rw [duration_toNat start_date end_date h]
  apply buildDays_eq
  intro i hi
  rw [List.mem_range] at hi
  exact dayPlanOf_eq _ _ _ _ (by omega)

lemma generate_default_itinerary_eq (start_date end_date : Nat)
    (destination description title : String) (h : start_date ≤ end_date)
    (hmax : end_date < dateMaxOrdinal) :
    generate_default_itinerary start_date end_date destination description title =
      some ((List.range ((end_date - start_date) + 1)).map
        (dayPlanSpec ((end_date - start_date) + 1)
          (classify_destination destination (description ++ " " ++ title))
          start_date)) := by
  unfold generate_default_itinerary
  rw [mainItinerary_eq start_date end_date destination description title h hmax]

/-- The day plan the fallback generator produces for 0-based index `i`,
as a total function. -/
def basicPlanSpec (duration : Nat) (start_date : Nat) (i : Nat) : DayPlan :=
  { day := i + 1,
    date := dateStr (start_date + i),
    activities :=
      if i + 1 = 1 then
        ["Arrive at destination", "Check into accommodation",
         "Explore nearby area"]
      else if i + 1 = duration then
        ["Final sightseeing", "Pack and check out", "Departure"]
      else
        ["Morning sightseeing", "Lunch at local restaurant",
         "Afternoon activities", "Evening relaxation"],
    notes := "Day " ++ toString (i + 1) ++ " of your trip" }

lemma basicDayOf_eq (duration : Nat) (start_date i : Nat)
    (h : start_date + i + 1 ≤ dateMaxOrdinal) :
    basicDayOf duration start_date i =
      some (basicPlanSpec duration start_date i) := by
  simp [basicDayOf, addDay_eq _ h, basicPlanSpec]

lemma generate_basic_itinerary_eq (start_date end_date : Nat)
    (h : start_date ≤ end_date) (hmax : end_date < dateMaxOrdinal) :
    generate_basic_itinerary start_date end_date =
      some ((List.range ((end_date - start_date) + 1)).map
        (basicPlanSpec ((end_date - start_date) + 1) start_date)) := by
  unfold generate_basic_itinerary
  rw [duration_toNat start_date end_date h]
  apply buildDays_eq
  intro i hi
  rw [List.mem_range] at hi
  exact basicDayOf_eq _ _ _ (by omega)

/-! ### Helper lemmas: the classifier -/

/-- All eight scores, in declaration order (no positivity filter). -/
def scoresAll (text : String) : List (String × Nat) :=
  DESTINATION_KEYWORDS.map (fun p => (p.1, keywordScore text p.2))

/-- The largest score in a score list (`0` for the empty list). -/
def maxScore : List (String × Nat) → Nat
  | [] => 0
  | p :: rest => max p.2 (maxScore rest)

/-- The first key in the list whose score equals `m`. -/
def firstAtMax (m : Nat) : List (String × Nat) → Option String
  | [] => none
  | (k, v) :: rest => if v = m then some k else firstAtMax m rest

lemma pyMax_firstAtMax (ls : List (String × Nat)) (k : String) (v : Nat) :
    firstAtMax (max v (maxScore ls)) ((k, v) :: ls) = some (pyMax k v ls) := by
  induction ls generalizing k v with
  | nil => simp [firstAtMax, maxScore, pyMax]
  | cons p rest ih =>
    obtain ⟨k2, v2⟩ := p
    simp only [maxScore, pyMax, firstAtMax]
    by_cases hv : v2 > v
    · rw [if_pos hv]
      have hM : max v (max v2 (maxScore rest)) = max v2 (maxScore rest) := by
        omega
      have hvne : ¬ v = max v (max v2 (maxScore rest)) := by omega
      rw [if_neg hvne, hM]
      have := ih k2 v2
      simpa [firstAtMax] using this
    · rw [if_neg hv]
      have hM : max v (max v2 (maxScore rest)) = max v (maxScore rest) := by
        omega
      rw [hM]
      have := ih k v
      simp only [firstAtMax] at this
      by_cases hveq : v = max v (maxScore rest)
      · rw [if_pos hveq]
        rw [if_pos hveq] at this
        exact this
      · rw [if_neg hveq]
        rw [if_neg hveq] at this
        have hv2ne : ¬ v2 = max v (maxScore rest) := by omega
        rw [if_neg hv2ne]
        exact this

lemma pyMax_mem (ls : List (String × Nat)) (k : String) (v : Nat) :
    pyMax k v ls ∈ k :: ls.map Prod.fst := by
  induction ls generalizing k v with
  | nil => simp [pyMax]
  | cons p rest ih =>
    obtain ⟨k2, v2⟩ := p
    simp only [pyMax]
    by_cases hv : v2 > v
    · rw [if_pos hv]
      have := ih k2 v2
      simp only [List.map_cons, List.mem_cons] at this ⊢
      tauto
    · rw [if_neg hv]
      have := ih k v
      simp only [List.map_cons, List.mem_cons] at this ⊢
      tauto

lemma scoresDict_eq_filter (text : String) :
    scoresDict text = (scoresAll text).filter (fun p => 0 < p.2) := by
  unfold scoresDict scoresAll
  induction DESTINATION_KEYWORDS with
  | nil => rfl
  | cons p rest ih =>
    by_cases h : 0 < keywordScore text p.2 <;>
      simp [List.filterMap_cons, List.filter_cons, h, ih]

lemma maxScore_filter (ls : List (String × Nat)) :
    maxScore (ls.filter (fun p => 0 < p.2)) = maxScore ls := by
  induction ls with
  | nil => rfl
  | cons p rest ih =>
    by_cases h : 0 < p.2 <;>
      simp [List.filter_cons, h, maxScore, ih] <;> omega

lemma firstAtMax_filter (ls : List (String × Nat)) (m : Nat) (hm : 0 < m) :
    firstAtMax m (ls.filter (fun p => 0 < p.2)) = firstAtMax m ls := by
  induction ls with
  | nil => rfl
  | cons p rest ih =>
    obtain ⟨k, v⟩ := p
    by_cases h : 0 < v
    · simp [List.filter_cons, h, firstAtMax, ih]
    · have hne : ¬ v = m := by omega
      simp [List.filter_cons, h, firstAtMax, hne, ih]

lemma maxScore_eq_zero_of_filter_nil (ls : List (String × Nat))
    (h : ls.filter (fun p => 0 < p.2) = []) : maxScore ls = 0 := by
  induction ls with
  | nil => rfl
  | cons p rest ih =>
    by_cases hp : 0 < p.2
    · simp [List.filter_cons, hp] at h
    · simp only [List.filter_cons] at h
      rw [if_neg (by simpa using hp)] at h
      simp [maxScore, ih h]
      omega

/-! ### The claims -/

/-- C10: `generate_daily_activities` ignores its `date_str` argument:
two calls differing only in `date_str` return the same result, so the
output depends solely on `(day_num, total_days, dest_type)`. -/
theorem C10_date_str_ignored (day_num total_days : Nat)
    (dest_type ds1 ds2 : String) :
    generate_daily_activities day_num total_days dest_type ds1 =
      generate_daily_activities day_num total_days dest_type ds2 := rfl

/-- C3: for `1 ≤ day_num ≤ total_days` and any destination type,
`generate_daily_activities` succeeds and returns: on day 1 the first 2
`arrival` entries of the (looked-up) template plus the first `evening`
entry when `total_days > 1`; on the last day (when it is not day 1) the
first `morning` entry followed by the full `departure` list; otherwise
2 `morning` + 2 `afternoon` + 1 `evening` entries — always truncated to
at most 4 entries. -/
theorem C3_daily_activities_shape (dest_type date_str : String)
    (day_num total_days : Nat) (h1 : 1 ≤ day_num) (h2 : day_num ≤ total_days) :
    ∃ tpl arr mor aft eve dep,
      templatesFor dest_type = some tpl ∧
      alookup tpl "arrival" = some arr ∧
      alookup tpl "morning" = some mor ∧
      alookup tpl "afternoon" = some aft ∧
      alookup tpl "evening" = some eve ∧
      alookup tpl "departure" = some dep ∧
      generate_daily_activities day_num total_days dest_type date_str =
        some ((if day_num = 1 then
                 arr.take 2 ++ (if total_days > 1 then eve.take 1 else [])
               else if day_num = total_days then mor.take 1 ++ dep
               else mor.take 2 ++ aft.take 2 ++ eve.take 1).take 4) ∧
      ∀ l, generate_daily_activities day_num total_days dest_type date_str =
          some l → l.length ≤ 4 := by
  obtain ⟨arr, mor, aft, eve, dep, ha, hm, hf, he, hd⟩ :=
    template_keys _ (tplGetD_mem dest_type)
  refine ⟨_, arr, mor, aft, eve, dep, templatesFor_eq dest_type,
    ha, hm, hf, he, hd, ?_, ?_⟩
  · rw [gda_eq_actSpec]
    simp [actSpec, ha, hm, hf, he, hd]
  · intro l hl
    rw [gda_eq_actSpec, Option.some.injEq] at hl
    subst hl
    simp only [actSpec, List.length_take]
    omega

/-- C3 witness: day 2 of a 3-day beach trip. -/
theorem C3_daily_activities_shape_witness :
    (1 ≤ 2 ∧ 2 ≤ 3) ∧
    ∃ tpl arr mor aft eve dep,
      templatesFor "beach" = some tpl ∧
      alookup tpl "arrival" = some arr ∧
      alookup tpl "morning" = some mor ∧
      alookup tpl "afternoon" = some aft ∧
      alookup tpl "evening" = some eve ∧
      alookup tpl "departure" = some dep ∧
      generate_daily_activities 2 3 "beach" "2025-09-02" =
        some ((if 2 = 1 then
                 arr.take 2 ++ (if 3 > 1 then eve.take 1 else [])
               else if 2 = 3 then mor.take 1 ++ dep
               else mor.take 2 ++ aft.take 2 ++ eve.take 1).take 4) ∧
      ∀ l, generate_daily_activities 2 3 "beach" "2025-09-02" = some l →
        l.length ≤ 4 :=
  ⟨⟨by decide, by decide⟩,
   C3_daily_activities_shape "beach" "2025-09-02" 2 3 (by decide) (by decide)⟩

/-- C5: `get_day_notes` returns the archetype's `first` note on day 1,
its `last` note on the final day of a multi-day trip, its `middle` note
otherwise; a 1-day trip gets the `first` note; an archetype missing from
the table falls back to the city notes. -/
theorem C5_day_notes (dest_type : String) (day_num total_days : Nat)
    (h1 : 1 ≤ day_num) (h2 : day_num ≤ total_days) :
    (day_num = 1 →
        get_day_notes day_num total_days dest_type = (notesFor dest_type).first) ∧
    (day_num = total_days → day_num ≠ 1 →
        get_day_notes day_num total_days dest_type = (notesFor dest_type).last) ∧
    (day_num ≠ 1 → day_num ≠ total_days →
        get_day_notes day_num total_days dest_type = (notesFor dest_type).middle) ∧
    get_day_notes 1 1 dest_type = (notesFor dest_type).first ∧
    (alookup notes_map dest_type = none → notesFor dest_type = cityNotes) := by
  refine ⟨?_, ?_, ?_, ?_, ?_⟩
  · intro hd; simp [get_day_notes, hd]
  · intro hd hne; subst hd; simp [get_day_notes, hne]
  · intro hne hnt; simp [get_day_notes, hne, hnt]
  · simp [get_day_notes]
  · intro hnone; simp [notesFor, hnone]

/-- C5 witness: the last day of a 3-day trip for the beach archetype. -/
theorem C5_day_notes_witness :
    (1 ≤ 3 ∧ 3 ≤ 3) ∧
    ((3 = 1 → get_day_notes 3 3 "beach" = (notesFor "beach").first) ∧
     (3 = 3 → 3 ≠ 1 → get_day_notes 3 3 "beach" = (notesFor "beach").last) ∧
     (3 ≠ 1 → 3 ≠ 3 → get_day_notes 3 3 "beach" = (notesFor "beach").middle) ∧
     get_day_notes 1 1 "beach" = (notesFor "beach").first ∧
     (alookup notes_map "beach" = none → notesFor "beach" = cityNotes)) :=
  ⟨⟨by decide, by decide⟩, C5_day_notes "beach" 3 3 (by decide) (by decide)⟩

/-- C2 counterexample: for the valid one-day trip ending on `date.max`
(`9999-12-31`, ordinal 3652059) the main path raises on its final date
increment, the `except` branch calls the fallback, and the fallback's
identical uncaught increment raises `OverflowError` out of the
function — so `generate_default_itinerary` neither avoids raising nor
returns the fallback's (nonexistent) output. -/
theorem C2_counterexample :
    3652059 ≤ 3652059 ∧
    dateStr 3652059 = "9999-12-31" ∧
    mainItinerary 3652059 3652059 "Anywhere" "" "" = none ∧
    generate_basic_itinerary 3652059 3652059 = none ∧
    generate_default_itinerary 3652059 3652059 "Anywhere" "" "" = none := by
  decide

/-- C2 (amended): on valid inputs with `end ≥ start` that end strictly
before `date.max`, the main path of `generate_default_itinerary`
succeeds (never raises) and the function returns its value; and on
every input, whenever the main path fails internally the function
returns exactly the result of `generate_basic_itinerary` (which itself
raises on trips ending at `date.max`, so "never raises" only holds off
that boundary). -/
theorem C2_never_raises_falls_back (start_date end_date : Nat)
    (destination description title : String) (h : start_date ≤ end_date)
    (hmax : end_date < dateMaxOrdinal) :
    (mainItinerary start_date end_date destination description title).isSome
        = true ∧
    generate_default_itinerary start_date end_date destination description
        title =
      mainItinerary start_date end_date destination description title ∧
    ∀ s2 e2 : Nat, ∀ d2 de2 t2 : String,
      mainItinerary s2 e2 d2 de2 t2 = none →
      generate_default_itinerary s2 e2 d2 de2 t2 =
        generate_basic_itinerary s2 e2 := by
  refine ⟨?_, ?_, ?_⟩
  · rw [mainItinerary_eq start_date end_date destination description title h
      hmax]
    rfl
  · unfold generate_default_itinerary
    rw [mainItinerary_eq start_date end_date destination description title h
      hmax]
  · intro s2 e2 d2 de2 t2 h2
    unfold generate_default_itinerary
    rw [h2]

/-- C2 witness: a concrete 3-day trip well inside the date range. -/
theorem C2_never_raises_falls_back_witness :
    (739495 ≤ 739497 ∧ 739497 < dateMaxOrdinal) ∧
    ((mainItinerary 739495 739497 "Paris, France" "" "").isSome = true ∧
     generate_default_itinerary 739495 739497 "Paris, France" "" "" =
       mainItinerary 739495 739497 "Paris, France" "" "" ∧
     ∀ s2 e2 : Nat, ∀ d2 de2 t2 : String,
       mainItinerary s2 e2 d2 de2 t2 = none →
       generate_default_itinerary s2 e2 d2 de2 t2 =
         generate_basic_itinerary s2 e2) :=
  ⟨⟨by decide, by decide⟩,
   C2_never_raises_falls_back 739495 739497 "Paris, France" "" ""
     (by decide) (by decide)⟩

/-- C1 counterexample: for the valid one-day trip ending on `date.max`
(`9999-12-31`, ordinal 3652059, with `end ≥ start`) the program raises
`OverflowError` on the loop's final `current_date += timedelta(days=1)`
(and again in the fallback), so `generate_default_itinerary` returns no
sequence at all — not a sequence of `(end - start) + 1` day plans. -/
theorem C1_counterexample :
    3652059 ≤ 3652059 ∧
    dateStr 3652059 = "9999-12-31" ∧
    generate_default_itinerary 3652059 3652059 "Anywhere" "" "" = none := by
  decide

/-- C1 (amended): for `end ≥ start` with `end` strictly before
`date.max`, `generate_default_itinerary` returns exactly
`(end - start) + 1` day plans whose `day` fields are `1, 2, ..., N` in
order and whose `date` fields are the consecutive calendar days
`start, start + 1, ..., end` (rendered by `strftime('%Y-%m-%d')`). -/
theorem C1_itinerary_shape (start_date end_date : Nat)
    (destination description title : String) (h : start_date ≤ end_date)
    (hmax : end_date < dateMaxOrdinal) :
    ∃ it, generate_default_itinerary start_date end_date destination
        description title = some it ∧
      it.length = (end_date - start_date) + 1 ∧
      ∀ i, i < it.length →
        it[i]?.map DayPlan.day = some (i + 1) ∧
        it[i]?.map DayPlan.date = some (dateStr (start_date + i)) := by
  refine ⟨_, generate_default_itinerary_eq start_date end_date destination
    description title h hmax, ?_, ?_⟩
  · simp
  · intro i hi
    simp only [List.length_map, List.length_range] at hi
    rw [List.getElem?_map, List.getElem?_range hi]
    constructor <;> simp [dayPlanSpec]

/-- C1 witness: a concrete 3-day trip well inside the date range. -/
theorem C1_itinerary_shape_witness :
    (739495 ≤ 739497 ∧ 739497 < dateMaxOrdinal) ∧
    (∃ it, generate_default_itinerary 739495 739497 "Paris, France" "" "" =
        some it ∧
      it.length = (739497 - 739495) + 1 ∧
      ∀ i, i < it.length →
        it[i]?.map DayPlan.day = some (i + 1) ∧
        it[i]?.map DayPlan.date = some (dateStr (739495 + i))) :=
  ⟨⟨by decide, by decide⟩,
   C1_itinerary_shape 739495 739497 "Paris, France" "" "" (by decide)
     (by decide)⟩

/-- C6 counterexample: the fallback generator's own uncaught
`current_date += timedelta(days=1)` raises `OverflowError` on its final
iteration whenever the trip ends on `date.max` (`9999-12-31`, ordinal
3652059), so it does not "never raise". -/
theorem C6_counterexample :
    3652059 ≤ 3652059 ∧
    dateStr 3652059 = "9999-12-31" ∧
    generate_basic_itinerary 3652059 3652059 = none := by
  decide

/-- C6 (amended): for `end ≥ start` with `end` strictly before
`date.max`, the fallback generator does not raise and returns exactly
`(end - start) + 1` day plans: a fixed 3-item arrival list on day 1, a
fixed 3-item departure list on the last day, a generic 4-item list on
middle days, and on every day `n` the literal note
`"Day {n} of your trip"`. -/
theorem C6_basic_itinerary_shape (start_date end_date : Nat)
    (h : start_date ≤ end_date) (hmax : end_date < dateMaxOrdinal) :
    ∃ it, generate_basic_itinerary start_date end_date = some it ∧
      it.length = (end_date - start_date) + 1 ∧
      ∀ i, i < it.length →
        it[i]? = some
          { day := i + 1,
            date := dateStr (start_date + i),
            activities :=
              if i = 0 then
                ["Arrive at destination", "Check into accommodation",
                 "Explore nearby area"]
              else if i = end_date - start_date then
                ["Final sightseeing", "Pack and check out", "Departure"]
              else
                ["Morning sightseeing", "Lunch at local restaurant",
                 "Afternoon activities", "Evening relaxation"],
            notes := "Day " ++ toString (i + 1) ++ " of your trip" } := by
  refine ⟨_, generate_basic_itinerary_eq start_date end_date h hmax, ?_, ?_⟩
  · simp
  · intro i hi
    simp only [List.length_map, List.length_range] at hi
    rw [List.getElem?_map, List.getElem?_range hi]
    by_cases hi0 : i = 0 <;> by_cases hil : i = end_date - start_date <;>
      simp [basicPlanSpec, hi0, hil]

/-- C6 witness: a concrete 3-day window well inside the date range. -/
theorem C6_basic_itinerary_shape_witness :
    (739495 ≤ 739497 ∧ 739497 < dateMaxOrdinal) ∧
    (∃ it, generate_basic_itinerary 739495 739497 = some it ∧
      it.length = (739497 - 739495) + 1 ∧
      ∀ i, i < it.length →
        it[i]? = some
          { day := i + 1,
            date := dateStr (739495 + i),
            activities :=
              if i = 0 then
                ["Arrive at destination", "Check into accommodation",
                 "Explore nearby area"]
              else if i = 739497 - 739495 then
                ["Final sightseeing", "Pack and check out", "Departure"]
              else
                ["Morning sightseeing", "Lunch at local restaurant",
                 "Afternoon activities", "Evening relaxation"],
            notes := "Day " ++ toString (i + 1) ++ " of your trip" }) :=
  ⟨⟨by decide, by decide⟩,
   C6_basic_itinerary_shape 739495 739497 (by decide) (by decide)⟩

lemma scoresDict_keys (text : String) (x : String)
    (hx : x ∈ (scoresDict text).map Prod.fst) :
    x ∈ DESTINATION_KEYWORDS.map Prod.fst := by
  rw [scoresDict_eq_filter] at hx
  obtain ⟨p, hp, rfl⟩ := List.mem_map.1 hx
  have hp2 : p ∈ scoresAll text := List.mem_of_mem_filter hp
  obtain ⟨q, hq, rfl⟩ := List.mem_map.1 hp2
  exact List.mem_map.2 ⟨q, hq, rfl⟩

/-- C7: `classify_destination` is case-insensitive and substring-based:
it depends only on the lower-cased concatenation of its arguments, the
upper-cased `"BALI retreat"` is classified `beach` via the `bali`
keyword, and `"Sunpeaks"` is classified `mountain` via the keyword
`peak` occurring inside a word (substring containment, not
word-boundary matching). -/
theorem C7_case_insensitive_substring :
    (∀ d1 s1 d2 s2 : String,
        lowerStr (d1 ++ " " ++ s1) = lowerStr (d2 ++ " " ++ s2) →
        classify_destination d1 s1 = classify_destination d2 s2) ∧
    classify_destination "BALI retreat" "" = "beach" ∧
    classify_destination "Sunpeaks" "" = "mountain" := by
  refine ⟨?_, by decide, by decide⟩
  intro d1 s1 d2 s2 h
  unfold classify_destination
  rw [h]

/-- C7 witness: two spellings of the same text classify identically. -/
theorem C7_case_insensitive_substring_witness :
    classify_destination "A" "b" = classify_destination "a" "B" :=
  C7_case_insensitive_substring.1 "A" "b" "a" "B" (by decide)

/-- C8: when no archetype keyword occurs in the lower-cased text,
`classify_destination` returns `"city"`; in particular on empty inputs;
and it always returns one of the eight valid archetypes. -/
theorem C8_default_city :
    (∀ destination description : String,
        (∀ p ∈ DESTINATION_KEYWORDS, ∀ kw ∈ p.2,
            strIn kw (lowerStr (destination ++ " " ++ description)) = false) →
        classify_destination destination description = "city") ∧
    classify_destination "" "" = "city" ∧
    (∀ destination description : String,
        classify_destination destination description ∈
          ["beach", "city", "mountain", "cultural", "adventure",
           "business", "romantic", "family"]) := by
  refine ⟨?_, by decide, ?_⟩
  · intro destination description hz
    unfold classify_destination classifyFromText
    have hnil : scoresDict (lowerStr (destination ++ " " ++ description)) = [] := by
      unfold scoresDict
      rw [List.filterMap_eq_nil_iff]
      intro p hp
      have hks : keywordScore (lowerStr (destination ++ " " ++ description))
          p.2 = 0 := by
        unfold keywordScore
        rw [List.length_eq_zero, List.filter_eq_nil_iff]
        intro kw hkw
        simp [hz p hp kw hkw]
      simp [hks]
    rw [hnil]
  · intro destination description
    unfold classify_destination classifyFromText
    cases hs : scoresDict (lowerStr (destination ++ " " ++ description)) with
    | nil => decide
    | cons p rest =>
      obtain ⟨k, v⟩ := p
      have hmem := pyMax_mem rest k v
      have hx : pyMax k v rest ∈ (scoresDict
          (lowerStr (destination ++ " " ++ description))).map Prod.fst := by
        rw [hs]
        simpa using hmem
      have := scoresDict_keys _ _ hx
      simpa [DESTINATION_KEYWORDS] using this

/-- C8 witness: a keyword-free input classifies as city. -/
theorem C8_default_city_witness :
    classify_destination "zzz" "qqq" = "city" :=
  C8_default_city.1 "zzz" "qqq" (by decide)

/-- Modelled from the claim's words (C4): the archetype that wins is the
first one, in `DESTINATION_KEYWORDS` declaration order, whose keyword
count reaches the maximum count over all eight archetypes. -/
def claimTieBreak (destination description : String) : Option String :=
  let text := lowerStr (destination ++ " " ++ description)
  firstAtMax (maxScore (scoresAll text)) (scoresAll text)

/-- C4 counterexample: on empty inputs every archetype scores 0, so the
claim's rule (first archetype reaching the top score, in declaration
order) picks `beach`, but the code returns `city`. -/
theorem C4_counterexample :
    claimTieBreak "" "" = some "beach" ∧
    classify_destination "" "" = "city" ∧
    classify_destination "" "" ≠ "beach" := by decide

/-- C4 (amended): whenever some archetype has a positive keyword count,
`classify_destination` returns exactly the first archetype, in table
declaration order, whose count reaches the maximum count (so the
strictly highest count wins and ties break deterministically towards
declaration order); only the all-zero case falls to the `city` default
instead. -/
theorem C4_tie_break (destination description : String)
    (h : 0 < maxScore (scoresAll (lowerStr (destination ++ " " ++ description)))) :
    claimTieBreak destination description =
      some (classify_destination destination description) := by
  unfold claimTieBreak classify_destination classifyFromText
  cases hs : scoresDict (lowerStr (destination ++ " " ++ description)) with
  | nil =>
    exfalso
    have h0 := maxScore_eq_zero_of_filter_nil
      (scoresAll (lowerStr (destination ++ " " ++ description)))
      (by rw [← scoresDict_eq_filter]; exact hs)
    omega
  | cons p rest =>
    obtain ⟨k, v⟩ := p
    have hfil := scoresDict_eq_filter
      (lowerStr (destination ++ " " ++ description))
    rw [hs] at hfil
    have hmax : maxScore (scoresAll
        (lowerStr (destination ++ " " ++ description))) =
        max v (maxScore rest) := by
      rw [← maxScore_filter (scoresAll
        (lowerStr (destination ++ " " ++ description))), ← hfil]
      rfl
    rw [← firstAtMax_filter (scoresAll
        (lowerStr (destination ++ " " ++ description))) _ h, ← hfil, hmax]
    exact pyMax_firstAtMax rest k v

/-- C4 witness: `paris` scores positively, the rule and the code agree. -/
theorem C4_tie_break_witness :
    0 < maxScore (scoresAll (lowerStr ("paris" ++ " " ++ ""))) ∧
    claimTieBreak "paris" "" = some (classify_destination "paris" "") :=
  ⟨by decide, C4_tie_break "paris" "" (by decide)⟩

/-- C9: the concrete example trip 2025-09-01 .. 2025-09-03 (ordinals
739495 .. 739497) to `"Paris, France"`: the archetype is `city` (the
generator classifies with `f"{description} {title}" = " "`), day 1 is
the first 2 city arrival entries plus the first evening entry, day 2 is
2 morning + 2 afternoon entries with the evening entry dropped by the
4-entry truncation, and day 3 is the first morning entry followed by
the full departure list truncated to 4. -/
theorem C9_paris_example :
    ∃ arr mor aft eve dep : List String,
      alookup cityTemplate "arrival" = some arr ∧
      alookup cityTemplate "morning" = some mor ∧
      alookup cityTemplate "afternoon" = some aft ∧
      alookup cityTemplate "evening" = some eve ∧
      alookup cityTemplate "departure" = some dep ∧
      classify_destination "Paris, France" " " = "city" ∧
      (generate_default_itinerary 739495 739497 "Paris, France" "" "").map
          (fun it => it.map DayPlan.activities) =
        some [arr.take 2 ++ eve.take 1,
              mor.take 2 ++ aft.take 2,
              (mor.take 1 ++ dep).take 4] ∧
      (mor.take 2 ++ aft.take 2 ++ eve.take 1).take 4 =
        mor.take 2 ++ aft.take 2 := by
  refine ⟨["Arrive in the city", "Check into hotel",
           "Initial city orientation walk"],
          ["Historic district exploration", "Famous landmarks tour",
           "Museums and galleries", "Local breakfast spots"],
          ["Shopping districts", "Cultural sites visit",
           "Local cuisine lunch", "Architectural tours"],
          ["Dinner at local restaurant", "Nightlife exploration",
           "Theater or entertainment", "City lights tour"],
          ["Final city walk", "Last-minute shopping",
           "Coffee at local café", "Departure to airport"], ?_⟩
  decide

end Planventure
